import Mathlib

/-!
Verification of the rtnetlink protocol engine of the comet repository
(crates/netlink): the wire codec (message.rs), the link build/parse paths
(handle.rs, link.rs), the address build/parse paths (handle.rs, addr.rs)
and the transaction loop (handle.rs, SocketHandle::execute).

Modelling conventions, fixed throughout the file:
* Byte buffers are lists of natural numbers; every emitter below produces
  values below 256.  Rust strings appear as their UTF-8 byte lists
  (the code only ever slices and compares them, which is byte-wise).
* The target is Linux on a little-endian machine, so the host byte order
  of all `to_ne_bytes` / pointer-cast reads is little-endian.
* Machine integers are Nat (u16/u32) or Int (i32) with explicit
  reductions modulo 2^16 / 2^32 at the points where the Rust code
  performs a cast or wrapping arithmetic.
* A Rust function that can panic (out-of-range slice index,
  `Option::unwrap` on `None`, integer underflow on `usize`) or return an
  `Err` is modelled as an `Option`: `none` is the abnormal outcome.
  The parse functions of message.rs (`NetlinkMessage::from`,
  `NetlinkRouteAttr::from`, `NetlinkRouteAttr::map`) contain no error
  return at all -- on a stated length below the header size or past the
  end of the buffer they panic on the slice expression
  `buf[HDR..len]` or `&buf[aligned_len..]`, hence `none` there always
  denotes a panic, never an error value.
-/

namespace Comet

/-- utils.rs `align_of`: Rust computes `(len + align_to - 1) & !(align_to - 1)`;
for a power-of-two alignment (the only uses are `NLMSG_ALIGNTO = RTA_ALIGNTO = 4`)
this equals rounding `len` up to the next multiple of `align_to`. -/
def align_of (len alignTo : Nat) : Nat :=
  (len + alignTo - 1) - (len + alignTo - 1) % alignTo

/-- utils.rs `zero_terminated`: the bytes of the string followed by one NUL. -/
def zero_terminated (s : List Nat) : List Nat := s ++ [0]

/-- Little-endian read of a u16 from the first two bytes (the
`*(buf.as_ptr() as *const RtAttr)` pointer cast on a little-endian host). -/
def readU16 (b : List Nat) : Nat := b.getD 0 0 + 256 * b.getD 1 0

/-- Little-endian read of a u32 from the first four bytes. -/
def readU32 (b : List Nat) : Nat :=
  b.getD 0 0 + 256 * b.getD 1 0 + 65536 * b.getD 2 0 + 16777216 * b.getD 3 0

/-- `i32::from_ne_bytes` on the first four bytes (two's complement). -/
def readI32 (b : List Nat) : Int :=
  let n := readU32 b
  if n < 2 ^ 31 then (n : Int) else (n : Int) - 2 ^ 32

/-- `i32::from_be_bytes` on the first four bytes (used for IFLA_PHYS_SWITCH_ID). -/
def readI32BE (b : List Nat) : Int :=
  let n := 16777216 * b.getD 0 0 + 65536 * b.getD 1 0 + 256 * b.getD 2 0 + b.getD 3 0
  if n < 2 ^ 31 then (n : Int) else (n : Int) - 2 ^ 32

/-- `u16::to_ne_bytes` (little-endian). -/
def u16Bytes (n : Nat) : List Nat := [n % 256, n / 256 % 256]

/-- `u32::to_ne_bytes` (little-endian). -/
def u32Bytes (n : Nat) : List Nat :=
  [n % 256, n / 256 % 256, n / 65536 % 256, n / 16777216 % 256]

/-- `i32::to_ne_bytes` (two's complement, little-endian). -/
def i32Bytes (z : Int) : List Nat := u32Bytes (z % 2 ^ 32).toNat

/- Constants.  consts.rs defines NLMSG/RTA alignment, NLMSG_ERROR/DONE,
PID_KERNEL, IFF_UP and the struct sizes; the remaining numeric values are
the Linux uapi values of the `libc::IFLA_*` / `libc::IFA_*` constants and
of the `consts::IFLA_BR_*`, `consts::VETH_INFO_PEER`, `consts::NLA_F_NESTED`
and `consts::IFLA_XDP_*` constants referenced by the crate. -/

def NLMSG_ALIGNTO : Nat := 4
def RTA_ALIGNTO : Nat := 4
def NLMSG_HDRLEN : Nat := 16
def RT_ATTR_SIZE : Nat := 4
def IF_INFO_MSG_SIZE : Nat := 16
def IF_ADDR_MSG_SIZE : Nat := 8
def NLMSG_ERROR : Nat := 2
def NLMSG_DONE : Nat := 3
def PID_KERNEL : Nat := 0
def IFF_UP : Nat := 1

def AF_UNSPEC : Nat := 0
def AF_INET : Nat := 2
def AF_INET6 : Nat := 10

def IFLA_ADDRESS : Nat := 1
def IFLA_IFNAME : Nat := 3
def IFLA_MTU : Nat := 4
def IFLA_LINK : Nat := 5
def IFLA_STATS : Nat := 7
def IFLA_MASTER : Nat := 10
def IFLA_PROTINFO : Nat := 12
def IFLA_TXQLEN : Nat := 13
def IFLA_OPERSTATE : Nat := 16
def IFLA_LINKINFO : Nat := 18
def IFLA_NET_NS_PID : Nat := 19
def IFLA_IFALIAS : Nat := 20
def IFLA_VFINFO_LIST : Nat := 22
def IFLA_STATS64 : Nat := 23
def IFLA_GROUP : Nat := 27
def IFLA_NET_NS_FD : Nat := 28
def IFLA_NUM_TX_QUEUES : Nat := 31
def IFLA_NUM_RX_QUEUES : Nat := 32
def IFLA_PHYS_SWITCH_ID : Nat := 36
def IFLA_LINK_NETNSID : Nat := 37
def IFLA_GSO_MAX_SIZE : Nat := 40
def IFLA_GSO_MAX_SEGS : Nat := 41
def IFLA_XDP : Nat := 43
def IFLA_GRO_MAX_SIZE : Nat := 58
def NLA_F_NESTED : Nat := 32768

def IFLA_INFO_KIND : Nat := 1
def IFLA_INFO_DATA : Nat := 2
def IFLA_INFO_SLAVE_KIND : Nat := 4
def IFLA_INFO_SLAVE_DATA : Nat := 5

def VETH_INFO_PEER : Nat := 1
def IFLA_BR_HELLO_TIME : Nat := 2
def IFLA_BR_AGEING_TIME : Nat := 4
def IFLA_BR_VLAN_FILTERING : Nat := 7
def IFLA_BR_MCAST_SNOOPING : Nat := 23

def IFLA_XDP_FD : Nat := 1
def IFLA_XDP_ATTACHED : Nat := 2
def IFLA_XDP_FLAGS : Nat := 3
def IFLA_XDP_PROG_ID : Nat := 4

def IFA_ADDRESS : Nat := 1
def IFA_LOCAL : Nat := 2
def IFA_LABEL : Nat := 3
def IFA_BROADCAST : Nat := 4
def IFA_CACHEINFO : Nat := 6

/-- message.rs `IfInfoMessage` (16 bytes): family, pad, type, index, flags,
change.  `serialize` goes through bincode, which writes the fields in order
with fixed-width little-endian encoding. -/
structure InfoMsg where
  family : Nat := 0
  ifi_type : Nat := 0
  index : Int := 0
  flags : Nat := 0
  change : Nat := 0
deriving DecidableEq

def infoMsgBytes (m : InfoMsg) : List Nat :=
  [m.family % 256, 0] ++ u16Bytes m.ifi_type ++ i32Bytes m.index
    ++ u32Bytes m.flags ++ u32Bytes m.change

/-- The request payload items of message.rs: `NetlinkRouteAttr` (a TLV
attribute with optional children) and an embedded `IfInfoMessage` (a veth
peer carries one as a child, via `add_child_from_attr`).  The Rust
`children: Option<Vec<_>>` is modelled as a plain list: `None` and
`Some(vec![])` are observationally identical in every code path. -/
inductive ReqData where
  | info (m : InfoMsg)
  | attr (rtaLen rtaType : Nat) (value : List Nat) (children : List ReqData)

/-- `NetlinkRequestData::len`: an attribute reports its bookkept `rta_len`,
an `IfInfoMessage` reports `IF_INFO_MSG_SIZE`. -/
def ReqData.len : ReqData → Nat
  | .info _ => IF_INFO_MSG_SIZE
  | .attr l _ _ _ => l

/-- message.rs `NetlinkRouteAttr::new`: bookkeeping length is
`RT_ATTR_SIZE + value.len()` cast to u16, no children. -/
def mkAttr (rtaType : Nat) (value : List Nat) : ReqData :=
  .attr ((RT_ATTR_SIZE + value.length) % 2 ^ 16) rtaType value []

/-- message.rs `NetlinkRouteAttr::add_child` / `add_child_from_attr`:
append the child and add its (unpadded) `len()` to the parent's `rta_len`
(u16 addition). -/
def addChild (parent child : ReqData) : ReqData :=
  match parent with
  | .attr l t v cs => .attr ((l + child.len) % 2 ^ 16) t v (cs ++ [child])
  | .info m => .info m

/-- message.rs `NetlinkRouteAttr::serialize`, structurally recursive on an
explicit nesting-depth fuel so that it evaluates by kernel reduction (the
build paths nest at most four levels deep; the wrapper passes fuel 32,
which is never exhausted on any value built in this file).  The steps of
the Rust function, in order: write the bookkept `rta_len` (u16) and
`rta_type` (u16), then the value bytes; zero-pad to `align_of(_, RTA_ALIGNTO)`;
append each serialized child; finally overwrite the first two bytes with
the total buffer length cast to u16. -/
def serializeFuel : Nat → ReqData → List Nat
  | _, .info m => infoMsgBytes m
  | 0, .attr _ _ _ _ => []
  | fuel + 1, .attr l t v cs =>
    let buf := u16Bytes l ++ u16Bytes t ++ v
    let buf := buf ++ List.replicate (align_of buf.length RTA_ALIGNTO - buf.length) 0
    let buf := buf ++ (cs.map (serializeFuel fuel)).flatten
    u16Bytes (buf.length % 2 ^ 16) ++ buf.drop 2

def serializeData (d : ReqData) : List Nat := serializeFuel 32 d

/-- request.rs `NetlinkRequest::serialize`, body part: the concatenation of
the serializations of the data items (the 16-byte netlink header written
before them and patched afterwards is not part of the body handed to the
deserializers). -/
def serializeDataList (ds : List ReqData) : List Nat :=
  (ds.map serializeData).flatten

end Comet

namespace Comet

/-- A parsed attribute as produced by `NetlinkRouteAttr::from`:
the stated `rta_len`, the `rta_type`, and the value bytes
`buf[RT_ATTR_SIZE..rta_len]`. -/
structure RtAttrT where
  rta_len : Nat
  rta_type : Nat
  value : List Nat
deriving DecidableEq

/-- message.rs `NetlinkRouteAttr::from`, on fuel (each iteration consumes at
least 4 bytes, so fuel `buf.length` in the wrapper is never exhausted).
The Rust loop runs while at least `RT_ATTR_SIZE` bytes remain, reads
`rta_len`/`rta_type` by pointer cast, takes `buf[RT_ATTR_SIZE..rta_len]`
as the value and advances by `align_of(rta_len, RTA_ALIGNTO)`.  There is no
length validation: `rta_len < 4`, `rta_len > buf.len()` or
`align_of(rta_len) > buf.len()` make a slice expression panic = `none`. -/
def rtAttrsFromFuel : Nat → List Nat → Option (List RtAttrT)
  | 0, _ => none
  | fuel + 1, buf =>
    if buf.length < RT_ATTR_SIZE then some []
    else
      let l := readU16 buf
      if RT_ATTR_SIZE ≤ l ∧ l ≤ buf.length ∧ align_of l RTA_ALIGNTO ≤ buf.length then
        match rtAttrsFromFuel fuel (buf.drop (align_of l RTA_ALIGNTO)) with
        | none => none
        | some rest =>
          some (⟨l, readU16 (buf.drop 2), (buf.take l).drop RT_ATTR_SIZE⟩ :: rest)
      else none

def rtAttrsFrom (buf : List Nat) : Option (List RtAttrT) :=
  rtAttrsFromFuel (buf.length + 1) buf

/-- message.rs `NetlinkRouteAttr::map`: the identical parse loop, inserting
`(rta_type, value)` into a `HashMap` in parse order (so a duplicate type is
overwritten by the later occurrence). -/
def rtAttrMapFrom (buf : List Nat) : Option (List (Nat × List Nat)) :=
  (rtAttrsFrom buf).map (fun l => l.map (fun a => (a.rta_type, a.value)))

/-- `HashMap::get` on the insertion list: the last insert for a key wins. -/
def mapGet (m : List (Nat × List Nat)) (k : Nat) : Option (List Nat) :=
  (m.reverse.find? (fun p => p.1 == k)).map (·.2)

/-- The fixed 16-byte netlink message header, as read back by the pointer
cast in `NetlinkMessage::from`. -/
structure NLHeader where
  nlmsg_len : Nat
  nlmsg_type : Nat
  nlmsg_flags : Nat
  nlmsg_seq : Nat
  nlmsg_pid : Nat
deriving DecidableEq

structure NLMsg where
  header : NLHeader
  data : List Nat
deriving DecidableEq

/-- message.rs `NetlinkMessage::from`, on fuel (each iteration consumes at
least 16 bytes).  Runs while at least `NLMSG_HDRLEN` bytes remain; the body
is `buf[NLMSG_HDRLEN..nlmsg_len]` and the cursor advances by
`align_of(nlmsg_len, NLMSG_ALIGNTO)`.  As with the attribute parser there is
no validation: a stated length below 16 or beyond the buffer panics =
`none`. -/
def nlMsgsFromFuel : Nat → List Nat → Option (List NLMsg)
  | 0, _ => none
  | fuel + 1, buf =>
    if buf.length < NLMSG_HDRLEN then some []
    else
      let nlen := readU32 buf
      if NLMSG_HDRLEN ≤ nlen ∧ nlen ≤ buf.length ∧
          align_of nlen NLMSG_ALIGNTO ≤ buf.length then
        match nlMsgsFromFuel fuel (buf.drop (align_of nlen NLMSG_ALIGNTO)) with
        | none => none
        | some rest =>
          some ({ header :=
                    { nlmsg_len := nlen
                      nlmsg_type := readU16 (buf.drop 4)
                      nlmsg_flags := readU16 (buf.drop 6)
                      nlmsg_seq := readU32 (buf.drop 8)
                      nlmsg_pid := readU32 (buf.drop 12) }
                  data := (buf.take nlen).drop NLMSG_HDRLEN } :: rest)
      else none

def nlMsgsFrom (buf : List Nat) : Option (List NLMsg) :=
  nlMsgsFromFuel (buf.length + 1) buf

/- ------------------------------------------------------------------ -/
/- Link model: link.rs and the build path handle.rs `link_new` /
   `link_get`. -/

/-- link.rs `LinkXdp`. -/
structure LinkXdp where
  fd : Int := 0
  attached : Bool := false
  attache_mode : Nat := 0
  flags : Nat := 0
  prog_id : Nat := 0
deriving DecidableEq

/-- link.rs `LinkAttrs`.  String fields are byte lists; all fields default
to the Rust `Default` values (0 / empty). -/
structure LinkAttrs where
  link_type : List Nat := []
  index : Int := 0
  name : List Nat := []
  hw_addr : List Nat := []
  mtu : Nat := 0
  flags : Nat := 0
  raw_flags : Nat := 0
  parent_index : Int := 0
  master_index : Int := 0
  tx_queue_len : Int := 0
  «alias» : List Nat := []
  oper_state : Nat := 0
  phys_switch_id : Int := 0
  netns_id : Int := 0
  gso_max_size : Nat := 0
  gso_max_segs : Nat := 0
  gro_max_size : Nat := 0
  num_tx_queues : Int := 0
  num_rx_queues : Int := 0
  group : Nat := 0
  xdp : LinkXdp := {}
deriving DecidableEq

/-- link.rs `Namespace`. -/
inductive NetNamespace where
  | pid (p : Int)
  | fd (f : Int)
deriving DecidableEq

/-- link.rs `Kind`.  The veth peer hardware address follows the build path
in handle.rs, which matches it as an `Option` (`link_deserialize` builds a
veth with no peer data, modelled as `none` / empty). -/
inductive Kind where
  | device (attrs : LinkAttrs)
  | dummy (attrs : LinkAttrs)
  | bridge (attrs : LinkAttrs) (hello_time ageing_time : Option Nat)
      (multicast_snooping vlan_filtering : Option Bool)
  | veth (attrs : LinkAttrs) (peer_name : List Nat)
      (peer_hw_addr : Option (List Nat)) (peer_ns : Option NetNamespace)
deriving DecidableEq

/-- link.rs `Link::attrs` for `Kind`. -/
def kindAttrs : Kind → LinkAttrs
  | .device a => a
  | .dummy a => a
  | .bridge a _ _ _ _ => a
  | .veth a _ _ _ => a

/-- link.rs `Link::link_type` for `Kind` (UTF-8 bytes of
"device" / "dummy" / "bridge" / "veth"). -/
def kindLinkType : Kind → List Nat
  | .device _ => [100, 101, 118, 105, 99, 101]
  | .dummy _ => [100, 117, 109, 109, 121]
  | .bridge _ _ _ _ _ => [98, 114, 105, 100, 103, 101]
  | .veth _ _ _ _ => [118, 101, 116, 104]

/-- handle.rs `link_new`, bridge arm: the `IFLA_INFO_DATA` attribute with
one child per present option, in source order. -/
def bridgeInfoData (hello_time ageing_time : Option Nat)
    (multicast_snooping vlan_filtering : Option Bool) : ReqData :=
  let d := mkAttr IFLA_INFO_DATA []
  let d := match hello_time with
    | some v => addChild d (mkAttr IFLA_BR_HELLO_TIME (u32Bytes v))
    | none => d
  let d := match ageing_time with
    | some v => addChild d (mkAttr IFLA_BR_AGEING_TIME (u32Bytes v))
    | none => d
  let d := match multicast_snooping with
    | some v => addChild d (mkAttr IFLA_BR_MCAST_SNOOPING [if v then 1 else 0])
    | none => d
  match vlan_filtering with
  | some v => addChild d (mkAttr IFLA_BR_VLAN_FILTERING [if v then 1 else 0])
  | none => d

/-- handle.rs `link_new`, veth arm: `IFLA_INFO_DATA` wrapping a
`VETH_INFO_PEER` that carries a fresh `IfInfoMessage`, the zero-terminated
peer name, then conditionally MTU, TXQLEN (whenever `tx_queue_len >= 0`),
NUM_TX/RX_QUEUES, ADDRESS and a namespace pid/fd. -/
def vethInfoData (base : LinkAttrs) (peer_name : List Nat)
    (peer_hw_addr : Option (List Nat)) (peer_ns : Option NetNamespace) : ReqData :=
  let p := mkAttr VETH_INFO_PEER []
  let p := addChild p (.info { family := AF_UNSPEC })
  let p := addChild p (mkAttr IFLA_IFNAME (zero_terminated peer_name))
  let p := if base.mtu > 0 then addChild p (mkAttr IFLA_MTU (u32Bytes base.mtu)) else p
  let p := if base.tx_queue_len ≥ 0 then
      addChild p (mkAttr IFLA_TXQLEN (i32Bytes base.tx_queue_len)) else p
  let p := if base.num_tx_queues > 0 then
      addChild p (mkAttr IFLA_NUM_TX_QUEUES (i32Bytes base.num_tx_queues)) else p
  let p := if base.num_rx_queues > 0 then
      addChild p (mkAttr IFLA_NUM_RX_QUEUES (i32Bytes base.num_rx_queues)) else p
  let p := match peer_hw_addr with
    | some hw => addChild p (mkAttr IFLA_ADDRESS hw)
    | none => p
  let p := match peer_ns with
    | some (.pid v) => addChild p (mkAttr IFLA_NET_NS_PID (i32Bytes v))
    | some (.fd v) => addChild p (mkAttr IFLA_NET_NS_FD (i32Bytes v))
    | none => p
  addChild (mkAttr IFLA_INFO_DATA []) p

/-- handle.rs `link_new`, the `IFLA_LINKINFO` attribute: `INFO_KIND` with
the (not zero-terminated) link-type string, plus the kind-specific
`INFO_DATA` for bridges and veths. -/
def linkInfoAttr (link : Kind) : ReqData :=
  let li := addChild (mkAttr IFLA_LINKINFO []) (mkAttr IFLA_INFO_KIND (kindLinkType link))
  match link with
  | .bridge _ ht at_ ms vf => addChild li (bridgeInfoData ht at_ ms vf)
  | .veth a pn phw pns => addChild li (vethInfoData a pn phw pns)
  | _ => li

/-- handle.rs `link_new`, the request data in emission order: the
`IfInfoMessage` (family UNSPEC, index when non-zero, IFF_UP flags/change
when the UP bit is set), the zero-terminated `IFLA_IFNAME`, the
conditional MTU / TXQLEN / NUM_TX_QUEUES / NUM_RX_QUEUES attributes, and
the `IFLA_LINKINFO` tree.  (The `flags` argument of the Rust function only
enters the netlink message header, not the body.) -/
def linkNewData (link : Kind) : List ReqData :=
  let base := kindAttrs link
  let msg : InfoMsg :=
    { family := AF_UNSPEC
      index := if base.index ≠ 0 then base.index else 0
      flags := if base.flags &&& IFF_UP ≠ 0 then IFF_UP else 0
      change := if base.flags &&& IFF_UP ≠ 0 then IFF_UP else 0 }
  [ReqData.info msg, mkAttr IFLA_IFNAME (zero_terminated base.name)]
    ++ (if base.mtu > 0 then [mkAttr IFLA_MTU (u32Bytes base.mtu)] else [])
    ++ (if base.tx_queue_len > 0 then [mkAttr IFLA_TXQLEN (i32Bytes base.tx_queue_len)] else [])
    ++ (if base.num_tx_queues > 0 then
        [mkAttr IFLA_NUM_TX_QUEUES (i32Bytes base.num_tx_queues)] else [])
    ++ (if base.num_rx_queues > 0 then
        [mkAttr IFLA_NUM_RX_QUEUES (i32Bytes base.num_rx_queues)] else [])
    ++ [linkInfoAttr link]

/-- handle.rs `link_get`: the `IfInfoMessage` (index when non-zero) and,
when the name is non-empty, an `IFLA_IFNAME` attribute holding the bare
name bytes (`attr.name.as_bytes().to_vec()`, no terminator). -/
def linkGetData (attr : LinkAttrs) : List ReqData :=
  [ReqData.info { family := AF_UNSPEC, index := if attr.index ≠ 0 then attr.index else 0 }]
    ++ (if attr.name ≠ [] then [mkAttr IFLA_IFNAME attr.name] else [])

/-- The value carried by the first attribute of the given `rta_type` in a
request data list (embedded info messages carry no type and are passed
over). -/
def findAttrValue (t : Nat) : List ReqData → Option (List Nat)
  | [] => none
  | .info _ :: rest => findAttrValue t rest
  | .attr _ ty v _ :: rest => if ty = t then some v else findAttrValue t rest

/-- The fixed link-info header as read back by
`IfInfoMessage::deserialize` (a pointer cast over `buf[..16]`). -/
def parseInfoMsg (buf : List Nat) : InfoMsg :=
  { family := buf.getD 0 0
    ifi_type := readU16 (buf.drop 2)
    index := readI32 (buf.drop 4)
    flags := readU32 (buf.drop 8)
    change := readU32 (buf.drop 12) }

/-- link.rs `LinkXdp::parse`, inner attribute loop.  Every `from_ne_bytes`
conversion unwraps a 4-byte slice and `value[0]` indexes the first byte:
too-short values panic = `none`. -/
def applyXdpAttrs : LinkXdp → List RtAttrT → Option LinkXdp
  | x, [] => some x
  | x, a :: rest =>
    if a.rta_type = IFLA_XDP_FD then
      if a.value.length < 4 then none
      else applyXdpAttrs { x with fd := readI32 a.value } rest
    else if a.rta_type = IFLA_XDP_ATTACHED then
      if a.value.length < 1 then none
      else applyXdpAttrs
        { x with attache_mode := a.value.getD 0 0, attached := a.value.getD 0 0 ≠ 0 } rest
    else if a.rta_type = IFLA_XDP_FLAGS then
      if a.value.length < 4 then none
      else applyXdpAttrs { x with flags := readU32 a.value } rest
    else if a.rta_type = IFLA_XDP_PROG_ID then
      if a.value.length < 4 then none
      else applyXdpAttrs { x with prog_id := readU32 a.value } rest
    else applyXdpAttrs x rest

/-- link.rs `LinkXdp::parse`: `NetlinkRouteAttr::from(data).unwrap()`
followed by the loop above. -/
def parseXdp (data : List Nat) : Option LinkXdp :=
  match rtAttrsFrom data with
  | none => none
  | some attrs => applyXdpAttrs {} attrs

/-- link.rs `extract_link_info`, the loop body over the LINKINFO children:
`INFO_KIND` strips the last byte of the value into `link_type`
(`value[..len-1]`, panicking on an empty value), `INFO_DATA` replaces the
`data` map with `NetlinkRouteAttr::map(value)`, the slave arms and unknown
types are ignored. -/
def extractLinkInfoLoop (base : LinkAttrs) (data : List (Nat × List Nat)) :
    List RtAttrT → Option (LinkAttrs × List (Nat × List Nat))
  | [] => some (base, data)
  | i :: rest =>
    if i.rta_type = IFLA_INFO_KIND then
      if i.value.length = 0 then none
      else extractLinkInfoLoop { base with link_type := i.value.dropLast } data rest
    else if i.rta_type = IFLA_INFO_DATA then
      match rtAttrMapFrom i.value with
      | none => none
      | some m => extractLinkInfoLoop base m rest
    else extractLinkInfoLoop base data rest

/-- link.rs `link_deserialize`, the main attribute loop.  Each arm mirrors
one `match attr.rt_attr.rta_type` arm of the source, in source order;
`IFLA_PROTINFO | NLA_F_NESTED` is the source's or-pattern.  Arms reading a
fixed-width integer out of `value[..4]` or `value[0]`, or stripping a
trailing NUL from `value[..len-1]`, panic on too-short values = `none`. -/
def linkAttrsLoop (base : LinkAttrs) (data : List (Nat × List Nat)) :
    List RtAttrT → Option (LinkAttrs × List (Nat × List Nat))
  | [] => some (base, data)
  | a :: rest =>
    if a.rta_type = IFLA_LINKINFO then
      match rtAttrsFrom a.value with
      | none => none
      | some infos =>
        match extractLinkInfoLoop base [] infos with
        | none => none
        | some (b, d) => linkAttrsLoop b d rest
    else if a.rta_type = IFLA_ADDRESS then
      linkAttrsLoop { base with hw_addr := a.value } data rest
    else if a.rta_type = IFLA_IFNAME then
      if a.value.length = 0 then none
      else linkAttrsLoop { base with name := a.value.dropLast } data rest
    else if a.rta_type = IFLA_MTU then
      if a.value.length < 4 then none
      else linkAttrsLoop { base with mtu := readU32 a.value } data rest
    else if a.rta_type = IFLA_LINK then
      if a.value.length < 4 then none
      else linkAttrsLoop { base with parent_index := readI32 a.value } data rest
    else if a.rta_type = IFLA_MASTER then
      if a.value.length < 4 then none
      else linkAttrsLoop { base with master_index := readI32 a.value } data rest
    else if a.rta_type = IFLA_TXQLEN then
      if a.value.length < 4 then none
      else linkAttrsLoop { base with tx_queue_len := readI32 a.value } data rest
    else if a.rta_type = IFLA_IFALIAS then
      if a.value.length = 0 then none
      else linkAttrsLoop { base with «alias» := a.value.dropLast } data rest
    else if a.rta_type = IFLA_STATS ∨ a.rta_type = IFLA_STATS64 then
      linkAttrsLoop base data rest
    else if a.rta_type = IFLA_XDP then
      match parseXdp a.value with
      | none => none
      | some x => linkAttrsLoop { base with xdp := x } data rest
    else if a.rta_type = IFLA_PROTINFO ∨ a.rta_type = NLA_F_NESTED then
      linkAttrsLoop base data rest
    else if a.rta_type = IFLA_OPERSTATE then
      if a.value.length = 0 then none
      else linkAttrsLoop { base with oper_state := a.value.getD 0 0 } data rest
    else if a.rta_type = IFLA_PHYS_SWITCH_ID then
      if a.value.length < 4 then none
      else linkAttrsLoop { base with phys_switch_id := readI32BE a.value } data rest
    else if a.rta_type = IFLA_LINK_NETNSID then
      if a.value.length < 4 then none
      else linkAttrsLoop { base with netns_id := readI32 a.value } data rest
    else if a.rta_type = IFLA_GSO_MAX_SIZE then
      if a.value.length < 4 then none
      else linkAttrsLoop { base with gso_max_size := readU32 a.value } data rest
    else if a.rta_type = IFLA_GSO_MAX_SEGS then
      if a.value.length < 4 then none
      else linkAttrsLoop { base with gso_max_segs := readU32 a.value } data rest
    else if a.rta_type = IFLA_GRO_MAX_SIZE then
      if a.value.length < 4 then none
      else linkAttrsLoop { base with gro_max_size := readU32 a.value } data rest
    else if a.rta_type = IFLA_VFINFO_LIST then
      linkAttrsLoop base data rest
    else if a.rta_type = IFLA_NUM_TX_QUEUES then
      if a.value.length < 4 then none
      else linkAttrsLoop { base with num_tx_queues := readI32 a.value } data rest
    else if a.rta_type = IFLA_NUM_RX_QUEUES then
      if a.value.length < 4 then none
      else linkAttrsLoop { base with num_rx_queues := readI32 a.value } data rest
    else if a.rta_type = IFLA_GROUP then
      if a.value.length < 4 then none
      else linkAttrsLoop { base with group := readU32 a.value } data rest
    else linkAttrsLoop base data rest

/-- link.rs `link_deserialize`, final variant selection on the parsed
`link_type` string: "dummy" / "bridge" (kind fields pulled from the
`INFO_DATA` map; a present map value shorter than its read panics) /
"veth" (empty peer fields) / default `Device`. -/
def selectKind (base : LinkAttrs) (data : List (Nat × List Nat)) : Option Kind :=
  if base.link_type = [100, 117, 109, 109, 121] then some (.dummy base)
  else if base.link_type = [98, 114, 105, 100, 103, 101] then
    let read4 : Option (List Nat) → Option (Option Nat) := fun v =>
      match v with
      | none => some none
      | some b => if b.length < 4 then none else some (some (readU32 b))
    let read1 : Option (List Nat) → Option (Option Bool) := fun v =>
      match v with
      | none => some none
      | some b => if b.length = 0 then none else some (some (b.getD 0 0 = 1))
    match read4 (mapGet data IFLA_BR_HELLO_TIME),
        read4 (mapGet data IFLA_BR_AGEING_TIME),
        read1 (mapGet data IFLA_BR_MCAST_SNOOPING),
        read1 (mapGet data IFLA_BR_VLAN_FILTERING) with
    | some ht, some at_, some ms, some vf => some (.bridge base ht at_ ms vf)
    | _, _, _, _ => none
  else if base.link_type = [118, 101, 116, 104] then
    some (.veth base [] none none)
  else some (.device base)

/-- link.rs `link_deserialize`: decode the 16-byte `IfInfoMessage`
(panicking on a shorter buffer), seed `LinkAttrs` with its index and raw
flags (`LinkAttrs::from`), parse the trailing attribute list, run the
attribute loop and select the variant. -/
def linkDeserialize (buf : List Nat) : Option Kind :=
  if buf.length < IF_INFO_MSG_SIZE then none
  else
    let ifi := parseInfoMsg buf
    match rtAttrsFrom (buf.drop IF_INFO_MSG_SIZE) with
    | none => none
    | some attrs =>
      match linkAttrsLoop { index := ifi.index, raw_flags := ifi.flags } [] attrs with
      | none => none
      | some (base, data) => selectKind base data

/- ------------------------------------------------------------------ -/
/- Address model: addr.rs and the build path handle.rs `addr_handle`. -/

/-- `std::net::IpAddr` as its octets (4 for V4, 16 for V6). -/
inductive IpAddrM where
  | v4 (octets : List Nat)
  | v6 (octets : List Nat)
deriving DecidableEq

/-- `ipnet::IpNet`: an address together with a prefix length. -/
structure IpNetM where
  addr : IpAddrM
  prefixLen : Nat
deriving DecidableEq

/-- addr.rs `Address`.  `Default` gives index 0, ip `0.0.0.0/0`
(`IpNet::default()`), empty label, zero flags/scope/lifetimes and no
broadcast/peer. -/
structure AddressM where
  index : Int := 0
  ip : IpNetM := ⟨.v4 [0, 0, 0, 0], 0⟩
  label : List Nat := []
  flags : Int := 0
  scope : Int := 0
  broadcast : Option IpAddrM := none
  peer : Option IpNetM := none
  preferred_lifetime : Int := 0
  valid_lifetime : Int := 0
deriving DecidableEq

/-- addr.rs `vec_to_addr`: 4 bytes are an IPv4 address, 16 bytes an IPv6
address, anything else is the `invalid address length` error. -/
def vecToAddr (v : List Nat) : Option IpAddrM :=
  if v.length = 4 then some (.v4 v)
  else if v.length = 16 then some (.v6 v)
  else none

/-- `IpNet::new(addr, prefix_len)`: fails with `PrefixLenError` when the
prefix exceeds the address width (32 for V4, 128 for V6). -/
def ipNetNew (a : IpAddrM) (prefixLen : Nat) : Option IpNetM :=
  match a with
  | .v4 _ => if prefixLen ≤ 32 then some ⟨a, prefixLen⟩ else none
  | .v6 _ => if prefixLen ≤ 128 then some ⟨a, prefixLen⟩ else none

/-- addr.rs `addr_deserialize`, attribute loop: only `IFA_ADDRESS` touches
the address (rebuilding `ip` from the value and the header's prefix
length); the `IFA_LOCAL`, `IFA_BROADCAST`, `IFA_LABEL` and `IFA_CACHEINFO`
arms are TODO stubs in the source and change nothing; other types are
ignored. -/
def applyAddrAttrs (prefixLen : Nat) : AddressM → List RtAttrT → Option AddressM
  | addr, [] => some addr
  | addr, a :: rest =>
    if a.rta_type = IFA_ADDRESS then
      match vecToAddr a.value with
      | none => none
      | some ip =>
        match ipNetNew ip prefixLen with
        | none => none
        | some net => applyAddrAttrs prefixLen { addr with ip := net } rest
    else applyAddrAttrs prefixLen addr rest

/-- addr.rs `addr_deserialize`: decode the 8-byte `IfAddrMessage`
(family, prefix_len, flags, scope, index -- a pointer cast over
`buf[..8]`, panicking on a shorter buffer), seed the address with the
header's index and scope, then run the attribute loop over the parsed
trailing list. -/
def addrDeserialize (buf : List Nat) : Option AddressM :=
  if buf.length < IF_ADDR_MSG_SIZE then none
  else
    let prefixLen := buf.getD 1 0
    match rtAttrsFrom (buf.drop IF_ADDR_MSG_SIZE) with
    | none => none
    | some attrs =>
      applyAddrAttrs prefixLen
        { index := readI32 (buf.drop 4), scope := (buf.getD 3 0 : Int) } attrs

/-- `Ipv4Addr::to_ipv6_mapped`: `::ffff:a.b.c.d`. -/
def toIpv6Mapped (o : List Nat) : List Nat :=
  List.replicate 10 0 ++ [255, 255] ++ o

/-- `Ipv6Addr::to_ipv4`: `Some` exactly for IPv4-mapped
(`::ffff:a.b.c.d`) and IPv4-compatible (`::a.b.c.d`) addresses. -/
def toIpv4 (o : List Nat) : Option (List Nat) :=
  if o.take 10 = List.replicate 10 0 ∧
      ((o.getD 10 0 = 255 ∧ o.getD 11 0 = 255) ∨ (o.getD 10 0 = 0 ∧ o.getD 11 0 = 0))
  then some (o.drop 12)
  else none

/-- The host-bits mask byte `i` of a prefix of length `p` (0 where the
netmask covers the bit, 1 elsewhere). -/
def hostMaskByte (p i : Nat) : Nat := 2 ^ (8 - min 8 (p - 8 * i)) - 1

/-- `IpNet::broadcast`: every host bit set. -/
def broadcastBytes (o : List Nat) (p : Nat) : List Nat :=
  (List.range o.length).map (fun i => o.getD i 0 ||| hostMaskByte p i)

/-- The address header struct literal built by `addr_handle`
(handle.rs): family, prefix_len, flags, scope, index. -/
structure AddrMsgM where
  family : Nat
  prefix_len : Nat
  flags : Int
  scope : Int
  index : Int
deriving DecidableEq

/-- handle.rs `addr_handle`, the request-building part after index
resolution (`index` is the resolved link index).  Derives the wire family
from the IP variant; computes the peer octets -- a V4 peer under an
AF_INET6 local is v6-mapped, a V6 peer under an AF_INET local goes
through `Ipv6Addr::to_ipv4().unwrap()`, which panics (= `none`) when no
IPv4 form exists; a missing peer copies the local octets.  Then emits the
header and the `IFA_LOCAL` / `IFA_ADDRESS` attributes, plus, for AF_INET,
`IFA_BROADCAST` (explicit or derived from the prefix) and a
zero-terminated `IFA_LABEL` when the label is non-empty. -/
def addrHandleBuild (index : Int) (addr : AddressM) : Option (AddrMsgM × List ReqData) :=
  let famLocal : Nat × List Nat :=
    match addr.ip.addr with
    | .v4 o => (AF_INET, o)
    | .v6 o => (AF_INET6, o)
  let family := famLocal.1
  let localData := famLocal.2
  let peerData? : Option (List Nat) :=
    match addr.peer with
    | some ⟨.v4 o, _⟩ => if family = AF_INET6 then some (toIpv6Mapped o) else some o
    | some ⟨.v6 o, _⟩ => if family = AF_INET then toIpv4 o else some o
    | none => some localData
  match peerData? with
  | none => none
  | some peerData =>
    let msg : AddrMsgM :=
      { family := family, prefix_len := addr.ip.prefixLen, flags := addr.flags
        scope := addr.scope, index := index }
    let attrs := [mkAttr IFA_LOCAL localData, mkAttr IFA_ADDRESS peerData]
    let attrs := attrs ++
      (if family = AF_INET then
        let broadcast :=
          match addr.broadcast with
          | some (.v4 o) => o
          | some (.v6 o) => o
          | none =>
            match addr.ip.addr with
            | .v4 o => broadcastBytes o addr.ip.prefixLen
            | .v6 o => broadcastBytes o addr.ip.prefixLen
        [mkAttr IFA_BROADCAST broadcast] ++
          (if addr.label ≠ [] then [mkAttr IFA_LABEL (zero_terminated addr.label)] else [])
      else [])
    some (msg, attrs)

/- ------------------------------------------------------------------ -/
/- Transaction loop: handle.rs `SocketHandle::execute`. -/

/-- The observable outcomes of the receive part of `execute`:
the `Ok(res)` return, the three `bail!` sites (wrong sender pid, wrong
sequence number, kernel-reported error), the panic on a terminal frame
shorter than 4 bytes, and `pending` for a trace that ends while the loop
would still be blocked in `recv`. -/
inductive ExecOutcome where
  | ok (results : List (List Nat))
  | unexpectedPeer (senderPid : Nat)
  | seqMismatch (got expected : Nat)
  | kernelError (code : Int) (msg : List Nat) (tail : List Nat)
  | crashed
  | pending (acc : List (List Nat))
deriving DecidableEq

inductive MsgStep where
  | cont (acc : List (List Nat))
  | finished (out : ExecOutcome)
deriving DecidableEq

/-- handle.rs `execute`, inner `for m in msgs` loop over one datagram's
messages, carrying the collected payload list `acc`.  In source order: a
sequence mismatch fails the transaction; a message whose destination pid
is not the socket's local pid is skipped (`continue`); a DONE or ERROR
frame reads its first four body bytes as an i32 error code -- zero ends
the transaction successfully with the payloads collected so far, non-zero
fails it with the code, the `libc::strerror` text of the negated code and
the remaining body bytes; any other message appends its body to `acc`.
(`strerror` is OS state, taken as a parameter.) -/
def processMsgs (strerror : Int → List Nat) (expectedSeq localPid : Nat) :
    List NLMsg → List (List Nat) → MsgStep
  | [], acc => .cont acc
  | m :: rest, acc =>
    if m.header.nlmsg_seq ≠ expectedSeq then
      .finished (.seqMismatch m.header.nlmsg_seq expectedSeq)
    else if m.header.nlmsg_pid ≠ localPid then
      processMsgs strerror expectedSeq localPid rest acc
    else if m.header.nlmsg_type = NLMSG_DONE ∨ m.header.nlmsg_type = NLMSG_ERROR then
      if m.data.length < 4 then .finished .crashed
      else
        let errNo := readI32 m.data
        if errNo = 0 then .finished (.ok acc)
        else .finished (.kernelError errNo (strerror (-errNo)) (m.data.drop 4))
    else processMsgs strerror expectedSeq localPid rest (acc ++ [m.data])

/-- handle.rs `execute`, outer receive loop, over a trace of received
datagrams (sender pid from `recvfrom`, demultiplexed messages): a
datagram from a sender other than the kernel (pid 0) fails the
transaction before any of its messages is examined; otherwise the inner
loop runs and the outer loop continues until a terminal step. -/
def executeLoop (strerror : Int → List Nat) (expectedSeq localPid : Nat) :
    List (Nat × List NLMsg) → List (List Nat) → ExecOutcome
  | [], acc => .pending acc
  | (sender, msgs) :: rest, acc =>
    if sender ≠ PID_KERNEL then .unexpectedPeer sender
    else
      match processMsgs strerror expectedSeq localPid msgs acc with
      | .finished out => out
      | .cont acc2 => executeLoop strerror expectedSeq localPid rest acc2

/-- handle.rs `SocketHandle` sequence state. -/
structure SocketHandleM where
  seq : Nat
deriving DecidableEq

/-- handle.rs `execute`, lines 442-445: `self.seq += 1` on the u32 counter
(wrapping at 2^32) and assignment of the new counter value to
`req.header.nlmsg_seq`.  Returns the updated handle and the sequence
number given to the request. -/
def executeSeqAssign (h : SocketHandleM) : SocketHandleM × Nat :=
  let s := (h.seq + 1) % 2 ^ 32
  (⟨s⟩, s)

/- ------------------------------------------------------------------ -/
/- Concrete inputs used by the evaluation theorems and witnesses. -/

/-- A bridge with name "foo" (bytes 102 111 111), mtu 1400 and all four
kind-specific fields set: the values of the in-repo bridge test
(handle.rs `test_link_bridge` uses ageing time 30102 and vlan
filtering). -/
def c1Bridge : Kind :=
  .bridge { name := [102, 111, 111], mtu := 1400 }
    (some 200) (some 30102) (some true) (some false)

/-- What `link_deserialize` actually recovers from the `link_new` bytes of
`c1Bridge`: name and mtu are back, but the link type carries the padding
NUL -- bytes of "bridge" plus a trailing 0. -/
def c1Parsed : LinkAttrs :=
  { link_type := [98, 114, 105, 100, 103, 101, 0]
    name := [102, 111, 111]
    mtu := 1400 }

/-- `NetlinkRouteAttr::new(IFLA_IFNAME, b"ab\0")`: a 3-byte payload, whose
padded wire image exposes the length-field overwrite. -/
def c2Attr : ReqData := mkAttr IFLA_IFNAME [97, 98, 0]

/-- A 16-byte receive buffer whose header states `nlmsg_len = 8`, below
the 16-byte header size. -/
def c3MsgBuf : List Nat := [8, 0, 0, 0, 16, 0, 5, 0, 1, 0, 0, 0, 0, 0, 0, 0]

/-- An attribute buffer whose header states `rta_len = 2`, below the
4-byte attribute header size. -/
def c3AttrBufShort : List Nat := [2, 0, 1, 0]

/-- An attribute buffer whose header states `rta_len = 8`, past the end of
the 4-byte buffer. -/
def c3AttrBufLong : List Nat := [8, 0, 1, 0]

/-- `addr_handle` input: local 10.0.0.1/24 (AF_INET) with peer
2001:db8::1/64, an IPv6 address with no IPv4 short form. -/
def c6Addr : AddressM :=
  { ip := ⟨.v4 [10, 0, 0, 1], 24⟩
    peer := some ⟨.v6 [32, 1, 13, 184, 0, 0, 0, 0, 0, 0, 0, 0, 0, 0, 0, 1], 64⟩ }

/-- An RTM_NEWADDR body: header (AF_INET, prefix 24, flags 0, scope 0,
index 3) followed by IFA_ADDRESS 10.0.0.1, IFA_LOCAL 10.0.0.2,
IFA_LABEL "eth0", IFA_BROADCAST 10.0.0.255 and an IFA_CACHEINFO with
preferred lifetime 100 and valid lifetime 200. -/
def c7Buf : List Nat :=
  [2, 24, 0, 0, 3, 0, 0, 0]
    ++ [8, 0, 1, 0, 10, 0, 0, 1]
    ++ [8, 0, 2, 0, 10, 0, 0, 2]
    ++ [9, 0, 3, 0, 101, 116, 104, 48, 0, 0, 0, 0]
    ++ [8, 0, 4, 0, 10, 0, 0, 255]
    ++ [20, 0, 6, 0, 100, 0, 0, 0, 200, 0, 0, 0, 0, 0, 0, 0, 0, 0, 0, 0]

/-- What `addr_deserialize` returns for `c7Buf`: only index, scope and the
IFA_ADDRESS-derived ip; label, broadcast and both lifetimes stay at their
defaults. -/
def c7Result : AddressM :=
  { index := 3, scope := 0, ip := ⟨.v4 [10, 0, 0, 1], 24⟩ }

/-- `link_get` attributes for the loopback name "lo" (bytes 108 111). -/
def c8GetAttrs : LinkAttrs := { name := [108, 111] }

/-- An RTM_NEWADDR body with no IFA_ADDRESS attribute: header (AF_INET,
prefix 24, flags 0, scope 0, index 7) followed by a single IFA_LOCAL. -/
def c10Buf : List Nat :=
  [2, 24, 0, 0, 7, 0, 0, 0] ++ [8, 0, 2, 0, 10, 0, 0, 1]

/-- The parse of the attribute tail of `c10Buf`. -/
def c10Attrs : List RtAttrT := [⟨8, 2, [10, 0, 0, 1]⟩]

/-- A stand-in for the OS `strerror` table (the transaction theorems hold
for every such table; witnesses instantiate with this one). -/
def strerrorStub : Int → List Nat := fun _ => [69, 63]

/-- A terminal DONE frame with error code 0 (sequence 5, destination
pid 7). -/
def c5OkMsg : NLMsg := ⟨⟨20, 3, 0, 5, 7⟩, [0, 0, 0, 0]⟩

/-- A terminal ERROR frame whose first four body bytes encode -5 in
two's complement, followed by two tail bytes. -/
def c5ErrMsg : NLMsg := ⟨⟨36, 2, 0, 5, 7⟩, [251, 255, 255, 255, 9, 9]⟩

/-- A message with sequence 9 against an outstanding request with
sequence 5. -/
def c4WrongSeqMsg : NLMsg := ⟨⟨16, 16, 0, 9, 7⟩, []⟩

/-- A message with matching sequence 5 but destination pid 8 against a
socket with local pid 7. -/
def c4WrongPidMsg : NLMsg := ⟨⟨16, 16, 0, 5, 8⟩, [1, 2]⟩

end Comet

namespace Comet

/- ------------------------------------------------------------------ -/
/- Theorems.  One theorem per claim of the specification, plus the
helper lemma for C10 and the counterexample/witness theorems. -/

/-- Helper for C10: the `addr_deserialize` attribute loop leaves the
address unchanged when no attribute has type IFA_ADDRESS (all other
recognized types are TODO stubs and unknown types are ignored). -/
theorem applyAddrAttrs_no_address (p : Nat) (x : AddressM) (attrs : List RtAttrT)
    (h : ∀ a ∈ attrs, a.rta_type ≠ IFA_ADDRESS) :
    applyAddrAttrs p x attrs = some x := by
  induction attrs with
  | nil => rfl
  | cons a rest ih =>
    have ha : a.rta_type ≠ IFA_ADDRESS := h a (by simp)
    simp only [applyAddrAttrs, if_neg ha]
    exact ih (fun b hb => h b (List.mem_cons_of_mem a hb))

/-- C1: the round-trip law `link_deserialize ∘ build_link_request` fails
for bridges.  Evaluating the code at the failing input: the `link_new`
body for `c1Bridge` (name "foo", mtu 1400, hello-time 200, ageing-time
30102, mcast-snooping on, vlan-filtering off) deserializes to a `Device`
variant -- name, index and mtu come back, but the link-type string gains
the padding NUL written into the INFO_KIND length field by
`NetlinkRouteAttr::serialize`, so the "bridge" match arm is missed and
all kind-specific data is dropped. -/
theorem C1_bridge_build_parse_yields_device :
    linkDeserialize (serializeDataList (linkNewData c1Bridge)) = some (.device c1Parsed)
      ∧ c1Parsed.link_type = kindLinkType c1Bridge ++ [0] := by
  constructor
  · rfl
  · rfl

/-- C2: the attribute serializer does not write `4 + len(payload)` into
the length field.  For `NetlinkRouteAttr::new(IFLA_IFNAME, b"ab\0")` the
constructor bookkeeps `rta_len = 7 = 4 + 3`, but `serialize` overwrites
the on-the-wire length field with the padded total 8. -/
theorem C2_attr_length_field_is_padded :
    ReqData.len c2Attr = 4 + 3
      ∧ serializeData c2Attr = [8, 0, 3, 0, 97, 98, 0, 0]
      ∧ readU16 (serializeData c2Attr) = 8
      ∧ readU16 (serializeData c2Attr) ≠ 4 + 3 := by
  refine ⟨rfl, rfl, rfl, ?_⟩
  decide

/-- C3: no `MalformedMessage` error is returned for out-of-range stated
lengths -- the parse functions panic (an out-of-range slice index),
modelled as `none`: a message header stating `nlmsg_len = 8 < 16`, an
attribute stating `rta_len = 2 < 4`, and an attribute stating
`rta_len = 8` past a 4-byte buffer. -/
theorem C3_malformed_lengths_crash :
    nlMsgsFrom c3MsgBuf = none
      ∧ rtAttrMapFrom c3AttrBufShort = none
      ∧ rtAttrMapFrom c3AttrBufLong = none := by
  refine ⟨rfl, rfl, rfl⟩

/-- C4: in the receive loop of `execute`, a datagram from a sender pid
other than the kernel's (0) fails the transaction with the
unexpected-peer error before any message is examined; a message whose
sequence differs from the outstanding request's fails it with the
sequence-mismatch error; and a message with matching sequence whose
destination pid differs from the socket's local pid is skipped, leaving
the collected results untouched. -/
theorem C4_receive_loop_validation (strerror : Int → List Nat) (seq pid : Nat) :
    (∀ (sender : Nat) (msgs : List NLMsg) (rest : List (Nat × List NLMsg))
        (acc : List (List Nat)), sender ≠ PID_KERNEL →
      executeLoop strerror seq pid ((sender, msgs) :: rest) acc = .unexpectedPeer sender)
      ∧ (∀ (m : NLMsg) (rest : List NLMsg) (acc : List (List Nat)),
          m.header.nlmsg_seq ≠ seq →
        processMsgs strerror seq pid (m :: rest) acc =
          .finished (.seqMismatch m.header.nlmsg_seq seq))
      ∧ (∀ (m : NLMsg) (rest : List NLMsg) (acc : List (List Nat)),
          m.header.nlmsg_seq = seq → m.header.nlmsg_pid ≠ pid →
        processMsgs strerror seq pid (m :: rest) acc =
          processMsgs strerror seq pid rest acc) := by
  refine ⟨?_, ?_, ?_⟩
  · intro sender msgs rest acc h
    simp [executeLoop, h]
  · intro m rest acc h
    simp [processMsgs, h]
  · intro m rest acc h1 h2
    simp [processMsgs, h1, h2]

/-- C4 witness: the three checks at concrete inputs (request sequence 5,
local pid 7): a datagram from sender 3, a message with sequence 9, and a
message with sequence 5 but destination pid 8. -/
theorem C4_receive_loop_validation_witness :
    ((3 : Nat) ≠ PID_KERNEL
        ∧ executeLoop strerrorStub 5 7 [(3, [])] [] = .unexpectedPeer 3)
      ∧ (c4WrongSeqMsg.header.nlmsg_seq ≠ 5
        ∧ processMsgs strerrorStub 5 7 [c4WrongSeqMsg] [] = .finished (.seqMismatch 9 5))
      ∧ (c4WrongPidMsg.header.nlmsg_seq = 5 ∧ c4WrongPidMsg.header.nlmsg_pid ≠ 7
        ∧ processMsgs strerrorStub 5 7 [c4WrongPidMsg] [] =
            processMsgs strerrorStub 5 7 [] []) :=
  ⟨⟨by decide, (C4_receive_loop_validation strerrorStub 5 7).1 3 [] [] [] (by decide)⟩,
    ⟨by decide, (C4_receive_loop_validation strerrorStub 5 7).2.1 c4WrongSeqMsg [] []
      (by decide)⟩,
    ⟨by decide, by decide, (C4_receive_loop_validation strerrorStub 5 7).2.2 c4WrongPidMsg [] []
      (by decide) (by decide)⟩⟩

/-- C5: a DONE or ERROR frame addressed to this transaction is terminal:
its first four body bytes are read as a signed error code; code zero ends
the transaction successfully with the payloads collected so far, and a
non-zero code fails it with that code, the strerror text of the negated
code, and the remaining body bytes. -/
theorem C5_terminal_frames (strerror : Int → List Nat) (seq pid : Nat)
    (m : NLMsg) (rest : List NLMsg) (acc : List (List Nat))
    (hseq : m.header.nlmsg_seq = seq) (hpid : m.header.nlmsg_pid = pid)
    (htype : m.header.nlmsg_type = NLMSG_DONE ∨ m.header.nlmsg_type = NLMSG_ERROR)
    (hlen : 4 ≤ m.data.length) :
    (readI32 m.data = 0 →
      processMsgs strerror seq pid (m :: rest) acc = .finished (.ok acc))
      ∧ (readI32 m.data ≠ 0 →
      processMsgs strerror seq pid (m :: rest) acc =
        .finished (.kernelError (readI32 m.data)
          (strerror (-readI32 m.data)) (m.data.drop 4))) := by
  constructor
  · intro h0
    simp [processMsgs, hseq, hpid, htype, Nat.not_lt.mpr hlen, h0]
  · intro h0
    simp [processMsgs, hseq, hpid, htype, Nat.not_lt.mpr hlen, h0]

/-- C5 witness: at sequence 5 and local pid 7, a DONE frame with body
`00 00 00 00` returns the collected payloads, and an ERROR frame with
body `FB FF FF FF 09 09` (code -5) fails with code -5, `strerror(5)` and
tail `09 09`. -/
theorem C5_terminal_frames_witness :
    (c5OkMsg.header.nlmsg_seq = 5 ∧ c5OkMsg.header.nlmsg_pid = 7
        ∧ c5OkMsg.header.nlmsg_type = NLMSG_DONE ∧ 4 ≤ c5OkMsg.data.length
        ∧ readI32 c5OkMsg.data = 0
        ∧ processMsgs strerrorStub 5 7 [c5OkMsg] [[1]] = .finished (.ok [[1]]))
      ∧ (c5ErrMsg.header.nlmsg_seq = 5 ∧ c5ErrMsg.header.nlmsg_pid = 7
        ∧ c5ErrMsg.header.nlmsg_type = NLMSG_ERROR ∧ 4 ≤ c5ErrMsg.data.length
        ∧ readI32 c5ErrMsg.data = -5
        ∧ processMsgs strerrorStub 5 7 [c5ErrMsg] [] =
            .finished (.kernelError (-5) (strerrorStub 5) [9, 9])) :=
  ⟨⟨by decide, by decide, by decide, by decide, by decide,
      (C5_terminal_frames strerrorStub 5 7 c5OkMsg [] [[1]] (by decide) (by decide)
        (Or.inl (by decide)) (by decide)).1 (by decide)⟩,
    ⟨by decide, by decide, by decide, by decide, by decide,
      (C5_terminal_frames strerrorStub 5 7 c5ErrMsg [] [] (by decide) (by decide)
        (Or.inr (by decide)) (by decide)).2 (by decide)⟩⟩

/-- C6: evaluating `addr_handle` at a local IPv4 address (10.0.0.1/24)
with an IPv6 peer that has no IPv4 short form (2001:db8::1/64):
`Ipv6Addr::to_ipv4()` is `None` and the `.unwrap()` panics (= `none`); no
`FamilyMismatch` error value is produced. -/
theorem C6_mixed_family_peer_crashes :
    toIpv4 [32, 1, 13, 184, 0, 0, 0, 0, 0, 0, 0, 0, 0, 0, 0, 1] = none
      ∧ addrHandleBuild 1 c6Addr = none := by
  refine ⟨rfl, rfl⟩

/-- C7: evaluating `addr_deserialize` on a body carrying IFA_LOCAL,
IFA_BROADCAST, IFA_LABEL and IFA_CACHEINFO attributes: all four are
discarded (TODO stubs) -- the returned address keeps the default empty
label, no broadcast, and zero preferred/valid lifetimes. -/
theorem C7_addr_attrs_discarded :
    addrDeserialize c7Buf = some c7Result
      ∧ c7Result.label = []
      ∧ c7Result.broadcast = none
      ∧ c7Result.preferred_lifetime = 0
      ∧ c7Result.valid_lifetime = 0 := by
  refine ⟨rfl, rfl, rfl, rfl, rfl⟩

/-- C8 counterexample: the IFLA_IFNAME attribute emitted by `link_get`
for the name "lo" carries the bare name bytes, not the name followed by a
NUL byte. -/
theorem C8_link_get_name_not_terminated :
    findAttrValue IFLA_IFNAME (linkGetData c8GetAttrs) = some [108, 111]
      ∧ some [108, 111] ≠ some ([108, 111] ++ [0]) := by
  refine ⟨rfl, by decide⟩

/-- C8 amended: `link_new` emits the IFLA_IFNAME value zero-terminated
(name bytes followed by one NUL) for every link, while `link_get` emits
the bare name bytes without a terminator. -/
theorem C8_ifname_termination :
    (∀ link : Kind, findAttrValue IFLA_IFNAME (linkNewData link) =
        some (zero_terminated (kindAttrs link).name))
      ∧ (∀ a : LinkAttrs, a.name ≠ [] →
        findAttrValue IFLA_IFNAME (linkGetData a) = some a.name) := by
  constructor
  · intro link
    simp [linkNewData, findAttrValue, mkAttr]
  · intro a h
    simp [linkGetData, findAttrValue, mkAttr, h]

/-- C8 witness: the amended statement at the dummy link "foo" and at a
`link_get` for the non-empty name "lo". -/
theorem C8_ifname_termination_witness :
    findAttrValue IFLA_IFNAME (linkNewData (.dummy { name := [102, 111, 111] })) =
        some (zero_terminated [102, 111, 111])
      ∧ (c8GetAttrs.name ≠ []
        ∧ findAttrValue IFLA_IFNAME (linkGetData c8GetAttrs) = some c8GetAttrs.name) :=
  ⟨C8_ifname_termination.1 (.dummy { name := [102, 111, 111] }),
    by decide, C8_ifname_termination.2 c8GetAttrs (by decide)⟩

/-- C9 counterexample: the sequence counter is a u32; at counter value
2^32 - 1 the next request is assigned sequence 0, which is neither the
previous value plus one nor greater than it. -/
theorem C9_seq_wraps_at_u32_max :
    (executeSeqAssign ⟨2 ^ 32 - 1⟩).2 = 0
      ∧ ¬(2 ^ 32 - 1 < (executeSeqAssign ⟨2 ^ 32 - 1⟩).2) := by
  refine ⟨by decide, by decide⟩

/-- C9 amended: each executed request is assigned the previous counter
value plus one reduced modulo 2^32; as long as the counter has not
reached u32::MAX the assignment is exactly the previous value plus one,
the counter strictly increases, and the stored counter equals the
assigned sequence. -/
theorem C9_seq_strictly_increases_below_max (h : SocketHandleM)
    (hlt : h.seq + 1 < 2 ^ 32) :
    (executeSeqAssign h).2 = h.seq + 1
      ∧ h.seq < (executeSeqAssign h).2
      ∧ (executeSeqAssign h).1.seq = (executeSeqAssign h).2 := by
  have hm : (h.seq + 1) % 2 ^ 32 = h.seq + 1 := Nat.mod_eq_of_lt hlt
  refine ⟨hm, ?_, rfl⟩
  show h.seq < (h.seq + 1) % 2 ^ 32
  omega

/-- C9 witness: the amended statement at counter value 41. -/
theorem C9_seq_strictly_increases_witness :
    (41 : Nat) + 1 < 2 ^ 32
      ∧ (executeSeqAssign ⟨41⟩).2 = 41 + 1
      ∧ (41 : Nat) < (executeSeqAssign ⟨41⟩).2 :=
  ⟨by decide, (C9_seq_strictly_increases_below_max ⟨41⟩ (by decide)).1,
    (C9_seq_strictly_increases_below_max ⟨41⟩ (by decide)).2.1⟩

/-- C10: when the trailing bytes of an RTM_NEWADDR body parse to an
attribute list containing no IFA_ADDRESS attribute, `addr_deserialize`
succeeds and returns an address whose index and scope come from the
8-byte header while its ip (and every other field) keeps the default
value 0.0.0.0/0. -/
theorem C10_no_ifa_address_keeps_default_ip (buf : List Nat) (attrs : List RtAttrT)
    (h8 : 8 ≤ buf.length)
    (hparse : rtAttrsFrom (buf.drop IF_ADDR_MSG_SIZE) = some attrs)
    (hno : ∀ a ∈ attrs, a.rta_type ≠ IFA_ADDRESS) :
    addrDeserialize buf =
      some { index := readI32 (buf.drop 4), scope := (buf.getD 3 0 : Int)
             ip := ⟨.v4 [0, 0, 0, 0], 0⟩, label := [], flags := 0
             broadcast := none, peer := none
             preferred_lifetime := 0, valid_lifetime := 0 } := by
  have hne : ¬ buf.length < IF_ADDR_MSG_SIZE := by
    simp only [IF_ADDR_MSG_SIZE]
    omega
  unfold addrDeserialize
  rw [if_neg hne, hparse]
  exact applyAddrAttrs_no_address _ _ _ hno

/-- C10 witness: a concrete body (AF_INET, prefix 24, scope 0, index 7)
whose only trailing attribute is an IFA_LOCAL. -/
theorem C10_no_ifa_address_witness :
    8 ≤ c10Buf.length
      ∧ rtAttrsFrom (c10Buf.drop IF_ADDR_MSG_SIZE) = some c10Attrs
      ∧ (∀ a ∈ c10Attrs, a.rta_type ≠ IFA_ADDRESS)
      ∧ addrDeserialize c10Buf =
          some { index := 7, scope := 0
                 ip := ⟨.v4 [0, 0, 0, 0], 0⟩, label := [], flags := 0
                 broadcast := none, peer := none
                 preferred_lifetime := 0, valid_lifetime := 0 } :=
  ⟨by decide, by decide, by decide,
    C10_no_ifa_address_keeps_default_ip c10Buf c10Attrs (by decide) (by decide) (by decide)⟩

end Comet

